import Mathlib

/-!
Verification of the release-update tool (`release_update.py`).

The script is a sequence of shell-outs plus one HTTP GET.  We embed it
shallowly: an `Env` answers every external question (the outcome of each
shell command run through the script's `run` helper, the return codes of
the two bare `subprocess.run` diff checks, the environment variables, and
the GitHub latest-release response), and each Python function becomes a
Lean function in a writer-plus-exception monad `M` that records the list
of external `Effect`s performed and either returns a value or terminates
with an `Err` (`runtime` for Python `RuntimeError`, which `try/except
RuntimeError` can catch, and `exit` for `sys.exit`, which nothing in the
script catches).

Python string idioms are modelled by executable helpers: `pyStrip` for
`str.strip()`, `pyLower` for `str.lower()`, `pyIn` for the substring
operator `in`, `pyTruthyOpt` and `pyOr` for truthiness of
`Optional[str]` values and the `or` operator on them.
-/

namespace ReleaseUpdate

/-- Characters stripped by Python `str.strip()` (ASCII whitespace). -/
def isPySpace (c : Char) : Bool :=
  c == ' ' || c == '\t' || c == '\n' || c == '\r' || c == '\x0b' || c == '\x0c'

/-- Model of Python `str.strip()`: drop leading and trailing whitespace. -/
def pyStrip (s : String) : String :=
  String.mk (((s.toList.dropWhile isPySpace).reverse.dropWhile isPySpace).reverse)

/-- Model of Python `str.lower()`. -/
def pyLower (s : String) : String :=
  String.mk (s.toList.map Char.toLower)

/-- Does the character list `n` lead (i.e. occur as an initial segment of) `h`? -/
def leadsWith : List Char → List Char → Bool
  | [], _ => true
  | _ :: _, [] => false
  | a :: as, b :: bs => (a == b) && leadsWith as bs

/-- Does `s` start with the string `pre`? -/
def strStarts (s pre : String) : Bool :=
  leadsWith pre.toList s.toList

/-- Does the character list `n` occur contiguously inside `h`? -/
def occursIn (n : List Char) : List Char → Bool
  | [] => leadsWith n []
  | c :: rest => leadsWith n (c :: rest) || occursIn n rest

/-- Model of Python's substring test `needle in hay`. -/
def pyIn (needle hay : String) : Bool :=
  occursIn needle.toList hay.toList

/-- Truthiness of a Python `Optional[str]`: `None` and `""` are falsy. -/
def pyTruthyOpt : Option String → Bool
  | none => false
  | some s => s != ""

/-- Python `a or b` on `Optional[str]` values. -/
def pyOr (a b : Option String) : Option String :=
  if pyTruthyOpt a then a else b

/-- Outcome of a shell command started by the script's `run` helper:
either the 120-second timeout expired, or the process finished with a
return code and its combined stdout+stderr text. -/
inductive CmdOut where
  | timeout
  | done (rc : Int) (out : String)
deriving DecidableEq

/-- Outcome of the single GitHub latest-release request: a network-level
error (`HTTPError`/`URLError`/`TimeoutError`), or a JSON response whose
`tag_name` field is the given optional string. -/
inductive ApiOut where
  | netError (e : String)
  | response (tagName : Option String)
deriving DecidableEq

/-- A fatal condition: `runtime` models Python `RuntimeError` (catchable
by the script's `try/except RuntimeError` blocks), `exit` models
`sys.exit(message)` (caught nowhere in the script). Either one, if it
reaches the top level, terminates the process with the message. -/
inductive Err where
  | runtime (msg : String)
  | exit (msg : String)
deriving DecidableEq

/-- An observable external action of the script: a shell command run via
the `run` helper, a bare `subprocess.run` invocation (argv list), or the
HTTP GET to the GitHub API with its headers. -/
inductive Effect where
  | cmd (c : String)
  | proc (argv : List String)
  | httpGet (url : String) (headers : List (String × String))
deriving DecidableEq

/-- The external world: answers for every shell command run through the
`run` helper, return codes for the bare `subprocess.run` diff checks,
the two token environment variables, and the GitHub API response. -/
structure Env where
  runCmd : String → CmdOut
  procRc : List String → Int
  githubTokenVar : Option String
  ghTokenVar : Option String
  latestRelease : ApiOut

/-- Parsed command-line arguments (`argparse` yields `None` for an
omitted `--to-tag`/`--from-tag`). -/
structure Args where
  patch_branch : String
  to_tag : Option String
  from_tag : Option String

/-- The script's computations: a trace of external effects plus either a
result or a fatal condition. -/
def M (α : Type) : Type := List Effect × Except Err α

/-- Monadic bind: propagate the trace; stop at the first fatal condition. -/
def M.bind {α β : Type} (x : M α) (f : α → M β) : M β :=
  match x.2 with
  | Except.ok a => (x.1 ++ (f a).1, (f a).2)
  | Except.error e => (x.1, Except.error e)

/-- Monadic pure: no effects, a result. -/
def M.pure {α : Type} (a : α) : M α := ([], Except.ok a)

instance : Monad M where
  pure := M.pure
  bind := M.bind

/-- Model of `sys.exit(msg)`. -/
def sysExit {α : Type} (msg : String) : M α := ([], Except.error (Err.exit msg))

/-- Model of `raise RuntimeError(msg)`. -/
def raiseRT {α : Type} (msg : String) : M α := ([], Except.error (Err.runtime msg))

/-- Record one external effect. -/
def emitE (e : Effect) : M Unit := ([e], Except.ok ())

/-- Model of `try: x except RuntimeError as m: handler m`: a `runtime`
error of `x` is handed to `handler`; success and `exit` pass through. -/
def tryRT {α : Type} (x : M α) (handler : String → M α) : M α :=
  match x.2 with
  | Except.error (Err.runtime m) => (x.1 ++ (handler m).1, (handler m).2)
  | _ => x

/-! Configuration constants of the script. -/

def UPSTREAM_REPO : String := "n8n-io/n8n"

def UPSTREAM_URL : String := "https://github.com/" ++ UPSTREAM_REPO ++ ".git"

def PATCH_BRANCH_DEFAULT : String := "iam"

def RELEASE_TAG_SUFFIX : String := "iam"

/-- The `timeout=120` default of the `run` helper; every `run` call site
in the script uses this default. The two bare `subprocess.run` diff
checks in `ensure_clean` pass no timeout at all. -/
def run_timeout_default : Nat := 120

/-- Message of the `RuntimeError` raised when the per-command timeout
expires: `f"Timeout executing: {cmd}"`. -/
def timeoutMessage (cmd : String) : String :=
  "Timeout executing: " ++ cmd

/-- Message of the `RuntimeError` raised on a non-zero return code with
checking enabled: `f"Command failed ({rc}): {cmd}\n{text}"`, where
`text` is the captured combined stdout+stderr. -/
def failMessage (rc : Int) (cmd out : String) : String :=
  "Command failed (" ++ toString rc ++ "): " ++ cmd ++ "\n" ++ out

/-- The script's `run(cmd, capture, check, timeout)` helper.  `capture`
only selects whether the text is returned to the caller (call sites with
`capture=False` discard the value), so it is dropped here; `check` is the
`check` keyword.  Timeout kills the process and raises; a non-zero return
code with `check` raises; otherwise the combined output is returned. -/
def run (env : Env) (cmd : String) (check : Bool) : M String :=
  match env.runCmd cmd with
  | CmdOut.timeout =>
    ([Effect.cmd cmd], Except.error (Err.runtime (timeoutMessage cmd)))
  | CmdOut.done rc out =>
    if check && rc != 0 then
      ([Effect.cmd cmd], Except.error (Err.runtime (failMessage rc cmd out)))
    else
      ([Effect.cmd cmd], Except.ok out)

/-- A bare `subprocess.run(argv)` call: returns the process return code,
never raises, has no timeout. -/
def procRun (env : Env) (argv : List String) : M Int :=
  ([Effect.proc argv], Except.ok (env.procRc argv))

/-! The shell command strings the script builds. -/

def gpgVersionCmd : String := "gpg --version"

def cfgGetKeyCmd : String := "git config --get user.signingkey"

def cfgGetSignCmd : String := "git config --get commit.gpgsign"

def cfgSetSignCmd : String := "git config commit.gpgsign true"

def rpWorktreeCmd : String := "git rev-parse --is-inside-work-tree"

def lsFilesCmd : String := "git ls-files --others --exclude-standard"

def remoteVCmd : String := "git remote -v"

def addUpstreamCmd : String := "git remote add upstream " ++ UPSTREAM_URL

def fetchTagsCmd : String := "git fetch upstream --tags"

def revParseTagCmd (tag : String) : String :=
  "git rev-parse -q --verify refs/tags/" ++ tag

def fetchTagCmd (tag : String) : String :=
  "git fetch upstream " ++ tag ++ ":refs/tags/" ++ tag

def branchVerifyCmd (branch : String) : String :=
  "git rev-parse --verify " ++ branch

def describeCmd (branch : String) : String :=
  "git describe --tags --abbrev=0 --exclude \x27*-iam\x27 " ++ branch

def checkoutCmd (branch : String) : String := "git checkout " ++ branch

def rebaseCmd (new_tag old_tag patch_branch : String) : String :=
  "git rebase --rebase-merges --onto refs/tags/" ++ new_tag ++
    " refs/tags/" ++ old_tag ++ " " ++ patch_branch

def headShortCmd : String := "git rev-parse --short HEAD"

def tagCmdFS (t : String) : String :=
  "git tag -fs " ++ t ++ " -m \x27Release " ++ t ++ "\x27"

def tagCmdS (t : String) : String :=
  "git tag -s " ++ t ++ " -m \x27Release " ++ t ++ "\x27"

def tagCmdFA (t : String) : String :=
  "git tag -fa " ++ t ++ " -m \x27Release " ++ t ++ "\x27"

def tagCmdA (t : String) : String :=
  "git tag -a " ++ t ++ " -m \x27Release " ++ t ++ "\x27"

/-- Values accepted by the script as an enabled `commit.gpgsign`
configuration: the tuple `('true', '1', 'yes')`. -/
def gpgTrueValues : List String := ["true", "1", "yes"]

/-- `is_gpg_signing_available()`: probe `gpg --version`, then the
`user.signingkey` and `commit.gpgsign` configuration; any
`RuntimeError` (including a probe timeout) yields `False`. -/
def is_gpg_signing_available (env : Env) : M Bool :=
  tryRT
    (do
      let _ ← run env gpgVersionCmd true
      let signing_key ← run env cfgGetKeyCmd false
      if signing_key != "" && pyStrip signing_key != "" then
        pure true
      else
        let gpg_sign ← run env cfgGetSignCmd false
        if gpg_sign != "" && gpgTrueValues.contains (pyLower (pyStrip gpg_sign)) then
          pure true
        else
          pure false)
    (fun _ => pure false)

def repoErrMsg : String := "ERROR: Run this script inside a git repository."

/-- `ensure_repo()`: `git rev-parse --is-inside-work-tree`, exiting on
any `RuntimeError`. -/
def ensure_repo (env : Env) : M Unit :=
  tryRT
    (do
      let _ ← run env rpWorktreeCmd true
      pure ())
    (fun _ => sysExit repoErrMsg)

def diffArgv : List String := ["git", "diff", "--quiet"]

def diffCachedArgv : List String := ["git", "diff", "--cached", "--quiet"]

def cleanErrMsg : String :=
  "ERROR: Working tree/index has changes or untracked files. Commit/stash first."

/-- `ensure_clean()`: two bare `subprocess.run` diff checks plus the
untracked-files listing; exit if any shows work-tree dirt. -/
def ensure_clean (env : Env) : M Unit := do
  let wt ← procRun env diffArgv
  let idx ← procRun env diffCachedArgv
  let untrackedRaw ← run env lsFilesCmd true
  let untracked := pyStrip untrackedRaw
  if wt != 0 || idx != 0 || untracked != "" then
    sysExit cleanErrMsg
  else
    pure ()

def upstreamNeedle : String := "upstream"

/-- `ensure_upstream_remote()`: add the `upstream` remote when the
substring `"upstream"` does not occur in the `git remote -v` listing,
then fetch upstream tags. -/
def ensure_upstream_remote (env : Env) : M Unit := do
  let remotes ← run env remoteVCmd true
  if !(pyIn upstreamNeedle remotes) then
    let _ ← run env addUpstreamCmd true
    pure ()
  let _ ← run env fetchTagsCmd true
  pure ()

/-- `verify_tag_local(tag)`: check the tag exists locally; on failure,
fetch that tag from upstream instead. -/
def verify_tag_local (env : Env) (tag : String) : M Unit :=
  tryRT
    (do
      let _ ← run env (revParseTagCmd tag) true
      pure ())
    (fun _ => do
      let _ ← run env (fetchTagCmd tag) true
      pure ())

/-- `branch_exists(branch)`. -/
def branch_exists (env : Env) (branch : String) : M Bool :=
  tryRT
    (do
      let _ ← run env (branchVerifyCmd branch) true
      pure true)
    (fun _ => pure false)

def api_url : String :=
  "https://api.github.com/repos/" ++ UPSTREAM_REPO ++ "/releases/latest"

def userAgentValue : String := "release-rebase-script"

def bearerOf (t : String) : String := "Bearer " ++ t

/-- The headers of the latest-release request: a fixed User-Agent, plus
an Authorization header when `GITHUB_TOKEN or GH_TOKEN` is truthy. -/
def request_headers (env : Env) : List (String × String) :=
  let token := pyOr env.githubTokenVar env.ghTokenVar
  match token with
  | some tk =>
    if tk != "" then
      [("User-Agent", userAgentValue), ("Authorization", bearerOf tk)]
    else
      [("User-Agent", userAgentValue)]
  | none => [("User-Agent", userAgentValue)]

def fetchLatestFailMsg (e : String) : String :=
  "Failed to fetch latest release: " ++ e

def missingTagMsg : String := "GitHub API did not return \x27tag_name\x27."

/-- `get_latest_tag()`: one GET to the latest-release endpoint.  A
network error becomes a wrapped `RuntimeError`; a falsy `tag_name`
raises directly (that `RuntimeError` is not in the `except` tuple). -/
def get_latest_tag (env : Env) : M String := do
  emitE (Effect.httpGet api_url (request_headers env))
  match env.latestRelease with
  | ApiOut.netError e => raiseRT (fetchLatestFailMsg e)
  | ApiOut.response tagName =>
    match tagName with
    | some tag =>
      if tag != "" then pure tag else raiseRT missingTagMsg
    | none => raiseRT missingTagMsg

/-- `infer_base_tag_with_describe(branch)`: `git describe` excluding
`*-iam` tags; empty output or failure yields no candidate. -/
def infer_base_tag_with_describe (env : Env) (branch : String) : M (Option String) :=
  tryRT
    (do
      let descRaw ← run env (describeCmd branch) true
      let desc := pyStrip descRaw
      pure (if desc != "" then some desc else none))
    (fun _ => pure none)

/-- `create_or_update_release_tag(new_tag, suffix)`: force-move an
annotated tag `<new_tag>-<suffix>` on the current HEAD; signed (`-fs`,
falling back to `-s`) when GPG signing is available, unsigned (`-fa`,
falling back to `-a`) otherwise. -/
def create_or_update_release_tag (env : Env) (new_tag : String) (suffix : String) :
    M String := do
  let t := new_tag ++ "-" ++ suffix
  let use_gpg ← is_gpg_signing_available env
  if use_gpg then
    tryRT
      (do
        let _ ← run env (tagCmdFS t) true
        pure ())
      (fun _ => do
        let _ ← run env (tagCmdS t) true
        pure ())
  else
    tryRT
      (do
        let _ ← run env (tagCmdFA t) true
        pure ())
      (fun _ => do
        let _ ← run env (tagCmdA t) true
        pure ())
  pure t

/-- `do_rebase(patch_branch, old_tag, new_tag)`: verify both tags,
checkout, opportunistically enable `commit.gpgsign`, rebase, report
HEAD. -/
def do_rebase (env : Env) (patch_branch old_tag new_tag : String) : M Unit := do
  verify_tag_local env old_tag
  verify_tag_local env new_tag
  let _ ← run env (checkoutCmd patch_branch) true
  let use_gpg ← is_gpg_signing_available env
  if use_gpg then
    let current_gpg_sign ← run env cfgGetSignCmd false
    if current_gpg_sign == "" ||
        !(gpgTrueValues.contains (pyLower (pyStrip current_gpg_sign))) then
      let _ ← run env cfgSetSignCmd true
      pure ()
  let _ ← run env (rebaseCmd new_tag old_tag patch_branch) true
  let _ ← run env headShortCmd true
  pure ()

/-- `new_tag = args.to_tag or get_latest_tag()`. -/
def resolve_new_tag (env : Env) (args : Args) : M String :=
  match args.to_tag with
  | some t => if t != "" then pure t else get_latest_tag env
  | none => get_latest_tag env

/-- `old_tag = args.from_tag or infer_base_tag_with_describe(args.patch_branch)`. -/
def resolve_old_tag (env : Env) (args : Args) : M (Option String) :=
  match args.from_tag with
  | some t =>
    if t != "" then pure (some t)
    else infer_base_tag_with_describe env args.patch_branch
  | none => infer_base_tag_with_describe env args.patch_branch

def branchMissingMsg (branch : String) : String :=
  "ERROR: Branch \x27" ++ branch ++ "\x27 does not exist. Create/rename it first."

def noBaseMsg (branch : String) : String :=
  "ERROR: Could not infer the previous base tag with git describe --tags --abbrev=0 --exclude \x27*-iam\x27 " ++
    branch ++ "\nHint: pass --from-tag n8n@X.Y.Z explicitly."

/-- `main()` after argument parsing: preconditions, tag resolution,
rebase, release tagging. -/
def main_run (env : Env) (args : Args) : M Unit := do
  ensure_repo env
  ensure_clean env
  ensure_upstream_remote env
  let _gpg_available ← is_gpg_signing_available env
  let pbOk ← branch_exists env args.patch_branch
  if !pbOk then
    sysExit (branchMissingMsg args.patch_branch)
  else
    let new_tag ← resolve_new_tag env args
    verify_tag_local env new_tag
    let old_tagOpt ← resolve_old_tag env args
    match old_tagOpt with
    | none => sysExit (noBaseMsg args.patch_branch)
    | some old_tag =>
      if old_tag == "" then
        sysExit (noBaseMsg args.patch_branch)
      else do
        do_rebase env args.patch_branch old_tag new_tag
        let _custom ← create_or_update_release_tag env new_tag RELEASE_TAG_SUFFIX
        pure ()

/-! Effect classification used by the trace theorems. -/

/-- A shell command that mutates the repository or its remotes/tags:
adding a remote, fetching, checkout, rebase, tag creation, or setting
the `commit.gpgsign` configuration.  Every other command the script
issues is a read-only query. -/
def isMutatingCmd (c : String) : Bool :=
  strStarts c "git remote add " || strStarts c "git fetch " ||
    strStarts c "git checkout " || strStarts c "git rebase " ||
    strStarts c "git tag " || strStarts c "git config commit.gpgsign"

/-- Mutating effects.  The only bare `subprocess.run` invocations of the
script are the two read-only diff checks; any other argv is classified
conservatively as mutating.  The HTTP GET is read-only. -/
def isMutatingEffect : Effect → Bool
  | Effect.cmd c => isMutatingCmd c
  | Effect.proc argv => !(argv == diffArgv || argv == diffCachedArgv)
  | Effect.httpGet _ _ => false

/-- A command that writes git configuration: starts with `git config `
but is not a `git config --get` read. -/
def isConfigWriteCmd (c : String) : Bool :=
  strStarts c "git config " && !(strStarts c "git config --get")

/-- Effects that write git configuration. -/
def isConfigWriteEffect : Effect → Bool
  | Effect.cmd c => isConfigWriteCmd c
  | Effect.proc _ => false
  | Effect.httpGet _ _ => false

/-! Concrete environments and arguments used by counterexamples and
witnesses.  `okEnv` answers every shell command with exit status 0 and
empty output, reports a clean tree, has no token variables set, and
reports `n8n@1.99.0` as the latest release. -/

def okEnv : Env :=
  { runCmd := fun _ => CmdOut.done 0 ""
    procRc := fun _ => 0
    githubTokenVar := none
    ghTokenVar := none
    latestRelease := ApiOut.response (some "n8n@1.99.0") }

/-- Arguments with both tags supplied explicitly. -/
def cexArgs : Args :=
  { patch_branch := "iam", to_tag := some "n8n@1.2.3", from_tag := some "n8n@1.2.2" }

/-- An environment where GPG signing is configured (a signing key is
set) but `git tag -fs` fails; everything else succeeds. -/
def cexEnv2 : Env :=
  { okEnv with
    runCmd := fun c =>
      if c == cfgGetKeyCmd then CmdOut.done 0 "ABCD1234"
      else if c == tagCmdFS "n8n@1.2.3-iam" then CmdOut.done 128 "gpg: signing failed"
      else CmdOut.done 0 "" }

/-- An environment where the `gpg --version` probe times out and
everything else succeeds. -/
def cexEnv7 : Env :=
  { okEnv with
    runCmd := fun c =>
      if c == gpgVersionCmd then CmdOut.timeout
      else CmdOut.done 0 "" }

/-- An environment where `git describe` reports `n8n@1.50.0`. -/
def cexEnv3 : Env :=
  { okEnv with
    runCmd := fun c =>
      if c == describeCmd "iam" then CmdOut.done 0 "n8n@1.50.0\n"
      else CmdOut.done 0 "" }

/-- Arguments where `--from-tag` is supplied with the empty string. -/
def cexArgs3 : Args :=
  { patch_branch := "iam", to_tag := some "n8n@1.60.0", from_tag := some "" }

/-- An environment where `GITHUB_TOKEN` is set to the empty string. -/
def cexEnv4 : Env :=
  { okEnv with githubTokenVar := some "" }

/-- Arguments where `--to-tag` is supplied with the empty string. -/
def cexArgs4 : Args :=
  { patch_branch := "iam", to_tag := some "", from_tag := some "n8n@1.0.0" }

/-- The trace of the full GPG availability probe when nothing is
configured. -/
def gpgProbeTrace : List Effect :=
  [Effect.cmd gpgVersionCmd, Effect.cmd cfgGetKeyCmd, Effect.cmd cfgGetSignCmd]

/-- A clean-command environment whose unstaged-diff check reports 1. -/
def wEnv1 : Env :=
  { okEnv with procRc := fun a => if a == diffArgv then 1 else 0 }

/-- An environment whose latest-release request fails at network level. -/
def netEnv : Env := { okEnv with latestRelease := ApiOut.netError "boom" }

/-- Arguments with an explicit target tag and no `--from-tag`. -/
def wArgs3 : Args := { patch_branch := "iam", to_tag := some "n8n@1.60.0", from_tag := none }

def gitStatusCmd : String := "git status"

/-- An environment where `git status` fails with status 2. -/
def env8 : Env :=
  { okEnv with
    runCmd := fun c => if c == gitStatusCmd then CmdOut.done 2 "boom" else CmdOut.done 0 "" }

/-- A `git remote -v` listing whose only remote is named `origin` but
whose URL contains the substring `upstream`. -/
def remotesOut : String := "origin https://github.com/me/my-upstream-fork.git (fetch)"

/-- An environment whose remote listing is `remotesOut`. -/
def env9 : Env :=
  { okEnv with
    runCmd := fun c => if c == remoteVCmd then CmdOut.done 0 remotesOut else CmdOut.done 0 "" }

/-- The trace of the GPG availability probe when a signing key is
configured (the probe returns early). -/
def gpgKeyTrace : List Effect := [Effect.cmd gpgVersionCmd, Effect.cmd cfgGetKeyCmd]

/-- An environment with a configured signing key and `commit.gpgsign`
unset. -/
def gpgEnv : Env :=
  { okEnv with
    runCmd := fun c => if c == cfgGetKeyCmd then CmdOut.done 0 "KEYID" else CmdOut.done 0 "" }

/-- An environment in which GPG signing is unavailable and both
unsigned tag commands (`-fa` and its fallback `-a`) fail. -/
def tagFailEnv : Env :=
  { okEnv with
    runCmd := fun c =>
      if c == tagCmdFA "n8n@1.2.3-iam" then CmdOut.done 1 "boom1"
      else if c == tagCmdA "n8n@1.2.3-iam" then CmdOut.done 1 "boom2"
      else CmdOut.done 0 "" }

end ReleaseUpdate

namespace ReleaseUpdate

/-! Basic lemmas about the computation monad. -/

@[simp] theorem M_bind_def {α β : Type} (x : M α) (f : α → M β) :
    x >>= f = M.bind x f := rfl

@[simp] theorem M_bind_ok {α β : Type} (t : List Effect) (a : α) (f : α → M β) :
    M.bind (t, Except.ok a) f = (t ++ (f a).1, (f a).2) := rfl

@[simp] theorem M_bind_error {α β : Type} (t : List Effect) (e : Err) (f : α → M β) :
    M.bind (t, Except.error e) f = (t, Except.error e) := rfl

@[simp] theorem M_pure_eq {α : Type} (a : α) : (pure a : M α) = ([], Except.ok a) := rfl

@[simp] theorem tryRT_ok {α : Type} (t : List Effect) (a : α) (h : String → M α) :
    tryRT (t, Except.ok a) h = (t, Except.ok a) := rfl

@[simp] theorem tryRT_rt {α : Type} (t : List Effect) (m : String) (h : String → M α) :
    tryRT (t, Except.error (Err.runtime m)) h = (t ++ (h m).1, (h m).2) := rfl

@[simp] theorem tryRT_exit {α : Type} (t : List Effect) (m : String) (h : String → M α) :
    tryRT (t, Except.error (Err.exit m)) h = (t, Except.error (Err.exit m)) := rfl

theorem run_tmo (env : Env) (c : String) (chk : Bool) (h : env.runCmd c = CmdOut.timeout) :
    run env c chk = ([Effect.cmd c], Except.error (Err.runtime (timeoutMessage c))) := by
  unfold run; rw [h]

theorem run_done_ok (env : Env) (c : String) (chk : Bool) (rc : Int) (out : String)
    (h : env.runCmd c = CmdOut.done rc out) (hrc : (chk && rc != 0) = false) :
    run env c chk = ([Effect.cmd c], Except.ok out) := by
  unfold run; rw [h]; simp [hrc]

theorem run_done_fail (env : Env) (c : String) (rc : Int) (out : String)
    (h : env.runCmd c = CmdOut.done rc out) (hrc : rc ≠ 0) :
    run env c true = ([Effect.cmd c], Except.error (Err.runtime (failMessage rc c out))) := by
  unfold run; rw [h]; simp [hrc]

theorem run_trace (env : Env) (c : String) (chk : Bool) :
    (run env c chk).1 = [Effect.cmd c] := by
  unfold run
  rcases env.runCmd c with _ | ⟨rc, out⟩
  · rfl
  · dsimp only; split <;> rfl

theorem M_bind_trace {α β : Type} (x : M α) (f : α → M β) :
    ∃ t, (M.bind x f).1 = x.1 ++ t := by
  rcases hx : x.2 with e | a
  · exact ⟨[], by unfold M.bind; rw [hx]; simp⟩
  · exact ⟨(f a).1, by unfold M.bind; rw [hx]⟩

theorem M_bind_trace_nil {α β : Type} (x : M α) (f : α → M β)
    (hf : ∀ a, (f a).1 = []) : (M.bind x f).1 = x.1 := by
  rcases hx : x.2 with e | a
  · unfold M.bind; rw [hx]
  · unfold M.bind; rw [hx]; simp [hf]

theorem mem_bind_left {α β : Type} (x : M α) (f : α → M β) (e : Effect)
    (he : e ∈ x.1) : e ∈ (M.bind x f).1 := by
  obtain ⟨t2, ht2⟩ := M_bind_trace x f
  rw [ht2]
  exact List.mem_append_left _ he

/-! Characterizations of the script's components. -/

theorem verify_ok (env : Env) (t o : String)
    (h : env.runCmd (revParseTagCmd t) = CmdOut.done 0 o) :
    verify_tag_local env t = ([Effect.cmd (revParseTagCmd t)], Except.ok ()) := by
  unfold verify_tag_local
  rw [run_done_ok env _ true 0 o h (by simp)]
  simp

theorem ensure_repo_cases (env : Env) :
    ensure_repo env = ([Effect.cmd rpWorktreeCmd], Except.ok ()) ∨
    ensure_repo env = ([Effect.cmd rpWorktreeCmd], Except.error (Err.exit repoErrMsg)) := by
  unfold ensure_repo
  rcases h : env.runCmd rpWorktreeCmd with _ | ⟨rc, o⟩
  · right; rw [run_tmo env _ true h]; simp [sysExit]
  · by_cases hrc : rc = 0
    · left; subst hrc; rw [run_done_ok env _ true 0 o h (by simp)]; simp
    · right; rw [run_done_fail env _ rc o h hrc]; simp [sysExit]

theorem ensure_clean_dirty (env : Env)
    (h : env.procRc diffArgv ≠ 0 ∨ env.procRc diffCachedArgv ≠ 0 ∨
      ∃ out, env.runCmd lsFilesCmd = CmdOut.done 0 out ∧ pyStrip out ≠ "") :
    ∃ e, ensure_clean env =
      ([Effect.proc diffArgv, Effect.proc diffCachedArgv, Effect.cmd lsFilesCmd],
        Except.error e) := by
  unfold ensure_clean procRun
  rcases h1 : env.runCmd lsFilesCmd with _ | ⟨rc1, o1⟩
  · refine ⟨Err.runtime (timeoutMessage lsFilesCmd), ?_⟩
    rw [run_tmo env _ true h1]; simp
  · by_cases hrc : rc1 = 0
    · subst hrc
      rw [run_done_ok env _ true 0 o1 h1 (by simp)]
      have hcond : (env.procRc diffArgv != 0 || env.procRc diffCachedArgv != 0 ||
          pyStrip o1 != "") = true := by
        rcases h with hw | hi | ⟨o, ho, hne⟩
        · simp [hw]
        · simp [hi]
        · rw [h1] at ho
          cases ho
          simp [hne]
      refine ⟨Err.exit cleanErrMsg, ?_⟩
      simp only [M_bind_def, M_bind_ok, M_pure_eq, List.append_nil, List.nil_append]
      split
      · simp [sysExit]
      · next hfalse => exact absurd hcond (by simpa using hfalse)
    · refine ⟨Err.runtime (failMessage rc1 lsFilesCmd o1), ?_⟩
      rw [run_done_fail env _ rc1 o1 h1 hrc]; simp

/-! String lemmas. -/

theorem strAppend_assoc (a b c : String) : a ++ b ++ c = a ++ (b ++ c) := by
  cases a with | mk la =>
  cases b with | mk lb =>
  cases c with | mk lc =>
  show String.mk (la ++ lb ++ lc) = String.mk (la ++ (lb ++ lc))
  rw [List.append_assoc]

@[simp] theorem toList_append (a b : String) : (a ++ b).toList = a.toList ++ b.toList := by
  cases a; cases b; rfl

theorem leadsWith_append (n l1 l2 : List Char) (h : n.length ≤ l1.length) :
    leadsWith n (l1 ++ l2) = leadsWith n l1 := by
  induction n generalizing l1 with
  | nil => rfl
  | cons a as ih =>
    cases l1 with
    | nil => simp at h
    | cons b bs =>
      simp only [List.cons_append, leadsWith, List.append_eq]
      rw [ih bs (by simpa using h)]

theorem strStarts_of_toList (c pre lit : String) (rest : List Char)
    (hc : c.toList = lit.toList ++ rest) (hlen : pre.toList.length ≤ lit.toList.length) :
    strStarts c pre = strStarts lit pre := by
  unfold strStarts
  rw [hc]
  exact leadsWith_append _ _ _ hlen

/-! The parametrized commands of the script never write configuration. -/

theorem cfgW_revParseTag (t : String) :
    isConfigWriteEffect (Effect.cmd (revParseTagCmd t)) = false := by
  show isConfigWriteCmd (revParseTagCmd t) = false
  have h1 : strStarts (revParseTagCmd t) "git config " = false := by
    rw [strStarts_of_toList _ _ "git rev-parse -q --verify refs/tags/" t.toList
      (by simp [revParseTagCmd]) (by decide)]
    decide
  simp [isConfigWriteCmd, h1]

theorem cfgW_fetchTag (t : String) :
    isConfigWriteEffect (Effect.cmd (fetchTagCmd t)) = false := by
  show isConfigWriteCmd (fetchTagCmd t) = false
  have h1 : strStarts (fetchTagCmd t) "git config " = false := by
    rw [strStarts_of_toList _ _ "git fetch upstream "
      (t.toList ++ (":refs/tags/".toList ++ t.toList))
      (by simp [fetchTagCmd, List.append_assoc]) (by decide)]
    decide
  simp [isConfigWriteCmd, h1]

theorem cfgW_checkout (b : String) :
    isConfigWriteEffect (Effect.cmd (checkoutCmd b)) = false := by
  show isConfigWriteCmd (checkoutCmd b) = false
  have h1 : strStarts (checkoutCmd b) "git config " = false := by
    rw [strStarts_of_toList _ _ "git checkout " b.toList (by simp [checkoutCmd]) (by decide)]
    decide
  simp [isConfigWriteCmd, h1]

theorem cfgW_rebase (a b c : String) :
    isConfigWriteEffect (Effect.cmd (rebaseCmd a b c)) = false := by
  show isConfigWriteCmd (rebaseCmd a b c) = false
  have h1 : strStarts (rebaseCmd a b c) "git config " = false := by
    rw [strStarts_of_toList _ _ "git rebase --rebase-merges --onto refs/tags/"
      (a.toList ++ (" refs/tags/".toList ++ (b.toList ++ (" ".toList ++ c.toList))))
      (by simp [rebaseCmd, List.append_assoc]) (by decide)]
    decide
  simp [isConfigWriteCmd, h1]

theorem cfgW_tagFS (t : String) :
    isConfigWriteEffect (Effect.cmd (tagCmdFS t)) = false := by
  show isConfigWriteCmd (tagCmdFS t) = false
  have h1 : strStarts (tagCmdFS t) "git config " = false := by
    rw [strStarts_of_toList _ _ "git tag -fs "
      (t.toList ++ (" -m \x27Release ".toList ++ (t.toList ++ "\x27".toList)))
      (by simp [tagCmdFS, List.append_assoc]) (by decide)]
    decide
  simp [isConfigWriteCmd, h1]

theorem cfgW_tagS (t : String) :
    isConfigWriteEffect (Effect.cmd (tagCmdS t)) = false := by
  show isConfigWriteCmd (tagCmdS t) = false
  have h1 : strStarts (tagCmdS t) "git config " = false := by
    rw [strStarts_of_toList _ _ "git tag -s "
      (t.toList ++ (" -m \x27Release ".toList ++ (t.toList ++ "\x27".toList)))
      (by simp [tagCmdS, List.append_assoc]) (by decide)]
    decide
  simp [isConfigWriteCmd, h1]

theorem cfgW_tagFA (t : String) :
    isConfigWriteEffect (Effect.cmd (tagCmdFA t)) = false := by
  show isConfigWriteCmd (tagCmdFA t) = false
  have h1 : strStarts (tagCmdFA t) "git config " = false := by
    rw [strStarts_of_toList _ _ "git tag -fa "
      (t.toList ++ (" -m \x27Release ".toList ++ (t.toList ++ "\x27".toList)))
      (by simp [tagCmdFA, List.append_assoc]) (by decide)]
    decide
  simp [isConfigWriteCmd, h1]

theorem cfgW_tagA (t : String) :
    isConfigWriteEffect (Effect.cmd (tagCmdA t)) = false := by
  show isConfigWriteCmd (tagCmdA t) = false
  have h1 : strStarts (tagCmdA t) "git config " = false := by
    rw [strStarts_of_toList _ _ "git tag -a "
      (t.toList ++ (" -m \x27Release ".toList ++ (t.toList ++ "\x27".toList)))
      (by simp [tagCmdA, List.append_assoc]) (by decide)]
    decide
  simp [isConfigWriteCmd, h1]

end ReleaseUpdate

namespace ReleaseUpdate

/-! Trace-predicate preservation lemmas: if a predicate holds of every
effect a computation and its continuations can emit, it holds of every
effect in the combined trace. -/

theorem allP_bind {α β : Type} (p : Effect → Prop) (x : M α) (f : α → M β)
    (hx : ∀ e ∈ x.1, p e) (hf : ∀ a, ∀ e ∈ (f a).1, p e) :
    ∀ e ∈ (M.bind x f).1, p e := by
  obtain ⟨t, r⟩ := x
  rcases r with er | a
  · rw [M_bind_error]
    exact hx
  · rw [M_bind_ok]
    intro e he
    rcases List.mem_append.1 he with h1 | h1
    · exact hx e h1
    · exact hf a e h1

theorem allP_tryRT {α : Type} (p : Effect → Prop) (x : M α) (h : String → M α)
    (hx : ∀ e ∈ x.1, p e) (hh : ∀ m, ∀ e ∈ (h m).1, p e) :
    ∀ e ∈ (tryRT x h).1, p e := by
  obtain ⟨t, r⟩ := x
  rcases r with er | a
  · rcases er with m | m
    · rw [tryRT_rt]
      intro e he
      rcases List.mem_append.1 he with h1 | h1
      · exact hx e h1
      · exact hh m e h1
    · rw [tryRT_exit]
      exact hx
  · rw [tryRT_ok]
    exact hx

theorem allP_run (p : Effect → Prop) (env : Env) (c : String) (chk : Bool)
    (hc : p (Effect.cmd c)) : ∀ e ∈ (run env c chk).1, p e := by
  simp only [run_trace]
  intro e he
  rw [List.mem_singleton] at he
  subst he
  exact hc

theorem allP_nil (p : Effect → Prop) : ∀ e ∈ ([] : List Effect), p e := by
  intro e he
  exact absurd he (List.not_mem_nil e)

theorem allP_gpg (p : Effect → Prop) (env : Env)
    (h1 : p (Effect.cmd gpgVersionCmd)) (h2 : p (Effect.cmd cfgGetKeyCmd))
    (h3 : p (Effect.cmd cfgGetSignCmd)) :
    ∀ e ∈ (is_gpg_signing_available env).1, p e := by
  unfold is_gpg_signing_available
  simp only [M_bind_def]
  apply allP_tryRT
  · apply allP_bind
    · exact allP_run p env gpgVersionCmd true h1
    · intro a
      apply allP_bind
      · exact allP_run p env cfgGetKeyCmd false h2
      · intro sk
        cases hc : (sk != "" && pyStrip sk != "")
        · simp only [Bool.false_eq_true, if_false, M_bind_def]
          apply allP_bind
          · exact allP_run p env cfgGetSignCmd false h3
          · intro gs
            cases hc2 : (gs != "" && gpgTrueValues.contains (pyLower (pyStrip gs)))
            · simp only [Bool.false_eq_true, if_false]
              exact allP_nil p
            · simp only [if_true]
              exact allP_nil p
        · simp only [if_true]
          exact allP_nil p
  · intro m
    exact allP_nil p

theorem allP_verify (p : Effect → Prop) (env : Env) (tag : String)
    (h1 : p (Effect.cmd (revParseTagCmd tag))) (h2 : p (Effect.cmd (fetchTagCmd tag))) :
    ∀ e ∈ (verify_tag_local env tag).1, p e := by
  unfold verify_tag_local
  simp only [M_bind_def]
  apply allP_tryRT
  · apply allP_bind
    · exact allP_run p env (revParseTagCmd tag) true h1
    · intro a
      exact allP_nil p
  · intro m
    apply allP_bind
    · exact allP_run p env (fetchTagCmd tag) true h2
    · intro a
      exact allP_nil p

theorem allP_do_rebase (p : Effect → Prop) (env : Env) (pb ot nt : String)
    (hro : p (Effect.cmd (revParseTagCmd ot))) (hfo : p (Effect.cmd (fetchTagCmd ot)))
    (hrn : p (Effect.cmd (revParseTagCmd nt))) (hfn : p (Effect.cmd (fetchTagCmd nt)))
    (hco : p (Effect.cmd (checkoutCmd pb)))
    (h1 : p (Effect.cmd gpgVersionCmd)) (h2 : p (Effect.cmd cfgGetKeyCmd))
    (h3 : p (Effect.cmd cfgGetSignCmd)) (h4 : p (Effect.cmd cfgSetSignCmd))
    (hrb : p (Effect.cmd (rebaseCmd nt ot pb))) (hh : p (Effect.cmd headShortCmd)) :
    ∀ e ∈ (do_rebase env pb ot nt).1, p e := by
  unfold do_rebase
  simp only [M_bind_def]
  apply allP_bind
  · exact allP_verify p env ot hro hfo
  · intro a
    apply allP_bind
    · exact allP_verify p env nt hrn hfn
    · intro a2
      apply allP_bind
      · exact allP_run p env (checkoutCmd pb) true hco
      · intro a3
        apply allP_bind
        · exact allP_gpg p env h1 h2 h3
        · intro use_gpg
          cases use_gpg
          · simp only [Bool.false_eq_true, if_false]
            apply allP_bind
            · exact allP_nil p
            · intro a4
              apply allP_bind
              · exact allP_run p env (rebaseCmd nt ot pb) true hrb
              · intro a5
                apply allP_bind
                · exact allP_run p env headShortCmd true hh
                · intro a6
                  exact allP_nil p
          · simp only [if_true, M_bind_def]
            apply allP_bind
            · exact allP_run p env cfgGetSignCmd false h3
            · intro cur
              cases hc : (cur == "" || !(gpgTrueValues.contains (pyLower (pyStrip cur))))
              · simp only [Bool.false_eq_true, if_false, M_bind_def]
                apply allP_bind
                · exact allP_nil p
                · intro y
                  apply allP_bind
                  · exact allP_run p env (rebaseCmd nt ot pb) true hrb
                  · intro a5
                    apply allP_bind
                    · exact allP_run p env headShortCmd true hh
                    · intro a6
                      exact allP_nil p
              · simp only [if_true, M_bind_def]
                apply allP_bind
                · exact allP_run p env cfgSetSignCmd true h4
                · intro a4
                  apply allP_bind
                  · exact allP_nil p
                  · intro y
                    apply allP_bind
                    · exact allP_run p env (rebaseCmd nt ot pb) true hrb
                    · intro a5
                      apply allP_bind
                      · exact allP_run p env headShortCmd true hh
                      · intro a6
                        exact allP_nil p

theorem allP_create (p : Effect → Prop) (env : Env) (nt sfx : String)
    (h1 : p (Effect.cmd gpgVersionCmd)) (h2 : p (Effect.cmd cfgGetKeyCmd))
    (h3 : p (Effect.cmd cfgGetSignCmd))
    (hfs : p (Effect.cmd (tagCmdFS (nt ++ "-" ++ sfx))))
    (hs : p (Effect.cmd (tagCmdS (nt ++ "-" ++ sfx))))
    (hfa : p (Effect.cmd (tagCmdFA (nt ++ "-" ++ sfx))))
    (ha : p (Effect.cmd (tagCmdA (nt ++ "-" ++ sfx)))) :
    ∀ e ∈ (create_or_update_release_tag env nt sfx).1, p e := by
  unfold create_or_update_release_tag
  simp only [M_bind_def]
  apply allP_bind
  · exact allP_gpg p env h1 h2 h3
  · intro use_gpg
    cases use_gpg
    · simp only [Bool.false_eq_true, if_false]
      apply allP_bind
      · apply allP_tryRT
        · apply allP_bind
          · exact allP_run p env (tagCmdFA (nt ++ "-" ++ sfx)) true hfa
          · intro a
            exact allP_nil p
        · intro m
          apply allP_bind
          · exact allP_run p env (tagCmdA (nt ++ "-" ++ sfx)) true ha
          · intro a
            exact allP_nil p
      · intro a
        exact allP_nil p
    · simp only [if_true]
      apply allP_bind
      · apply allP_tryRT
        · apply allP_bind
          · exact allP_run p env (tagCmdFS (nt ++ "-" ++ sfx)) true hfs
          · intro a
            exact allP_nil p
        · intro m
          apply allP_bind
          · exact allP_run p env (tagCmdS (nt ++ "-" ++ sfx)) true hs
          · intro a
            exact allP_nil p
      · intro a
        exact allP_nil p

end ReleaseUpdate

namespace ReleaseUpdate

/-- C1: on any invocation in which the working tree has unstaged
changes, the index has staged changes, or untracked files exist (the
untracked listing succeeds with non-empty stripped output), the process
terminates with an error, and its whole trace contains no state-mutating
operation (no remote addition, fetch, checkout, rebase, tag creation, or
configuration write): the repository is unchanged. -/
theorem spec_C1_dirty_tree_fails_before_mutation (env : Env) (args : Args)
    (h : env.procRc diffArgv ≠ 0 ∨ env.procRc diffCachedArgv ≠ 0 ∨
      ∃ out, env.runCmd lsFilesCmd = CmdOut.done 0 out ∧ pyStrip out ≠ "") :
    (∃ e, (main_run env args).2 = Except.error e) ∧
      ((main_run env args).1.all fun e => !(isMutatingEffect e)) = true := by
  unfold main_run
  rcases ensure_repo_cases env with h0 | h0
  · obtain ⟨e1, hc⟩ := ensure_clean_dirty env h
    rw [h0]
    simp only [M_bind_def, M_bind_ok]
    rw [hc]
    simp only [M_bind_def, M_bind_error]
    exact ⟨⟨e1, rfl⟩, by decide⟩
  · rw [h0]
    simp only [M_bind_def, M_bind_error]
    exact ⟨⟨Err.exit repoErrMsg, rfl⟩, by decide⟩

/-- Witness for C1: a concrete environment whose unstaged-diff check
returns 1 satisfies the hypothesis, and the theorem applies. -/
theorem spec_C1_witness :
    (wEnv1.procRc diffArgv ≠ 0 ∨ wEnv1.procRc diffCachedArgv ≠ 0 ∨
      ∃ out, wEnv1.runCmd lsFilesCmd = CmdOut.done 0 out ∧ pyStrip out ≠ "") ∧
    (∃ e, (main_run wEnv1 cexArgs).2 = Except.error e) ∧
    ((main_run wEnv1 cexArgs).1.all fun e => !(isMutatingEffect e)) = true :=
  ⟨Or.inl (by decide),
    spec_C1_dirty_tree_fails_before_mutation wEnv1 cexArgs (Or.inl (by decide))⟩

/-- Counterexample to C2: in a concrete full run, the subprocess
`git tag -fs n8n@1.2.3-iam ...` fails with status 128, yet the process
does not terminate — it re-attempts the operation in the alternative
form `git tag -s` and finishes successfully.  This refutes "for every
failure of an external subprocess ... the process terminates ... and no
failing operation is re-attempted in an alternative form." -/
theorem spec_C2_counterexample :
    (main_run cexEnv2 cexArgs).2 = Except.ok () ∧
    cexEnv2.runCmd (tagCmdFS "n8n@1.2.3-iam") = CmdOut.done 128 "gpg: signing failed" ∧
    Effect.cmd (tagCmdFS "n8n@1.2.3-iam") ∈ (main_run cexEnv2 cexArgs).1 ∧
    Effect.cmd (tagCmdS "n8n@1.2.3-iam") ∈ (main_run cexEnv2 cexArgs).1 := by
  refine ⟨rfl, rfl, ?_, ?_⟩ <;> decide

/-- C2 (amended): a failure of the API request is fatal with a
human-readable message and is never retried (the trace holds exactly one
GET); every checked subprocess failure of the `run` helper raises the
human-readable `failMessage` naming the command and its captured output;
at a non-fallback call site the raise is uncaught — a failed checkout
aborts the rebase step with exactly that message — and any error of the
rebase step terminates the whole process with the same error; the
fallbacks are single attempts: when both `git tag -fs` and its fallback
`git tag -s` fail (signing in use), when both `git tag -fa` and its
fallback `git tag -a` fail (signing unavailable), or when both the tag
lookup and its fallback fetch fail, the process terminates with the
failure message of the fallback command. -/
theorem spec_C2_amended :
    (∀ (env : Env) (e : String), env.latestRelease = ApiOut.netError e →
      get_latest_tag env = ([Effect.httpGet api_url (request_headers env)],
        Except.error (Err.runtime (fetchLatestFailMsg e)))) ∧
    (∀ (env : Env) (c : String) (rc : Int) (out : String),
      env.runCmd c = CmdOut.done rc out → rc ≠ 0 →
      run env c true = ([Effect.cmd c],
        Except.error (Err.runtime (failMessage rc c out)))) ∧
    (∀ (env : Env) (pb ot nt o1 o2 : String) (rc3 : Int) (o3 : String),
      env.runCmd (revParseTagCmd ot) = CmdOut.done 0 o1 →
      env.runCmd (revParseTagCmd nt) = CmdOut.done 0 o2 →
      env.runCmd (checkoutCmd pb) = CmdOut.done rc3 o3 → rc3 ≠ 0 →
      do_rebase env pb ot nt =
        ([Effect.cmd (revParseTagCmd ot), Effect.cmd (revParseTagCmd nt),
          Effect.cmd (checkoutCmd pb)],
          Except.error (Err.runtime (failMessage rc3 (checkoutCmd pb) o3)))) ∧
    (∀ (env : Env) (args : Args) (t0 t1 t2 t3 t4 t5 t6 t7 t8 : List Effect)
      (b : Bool) (nt ot : String) (e : Err),
      ensure_repo env = (t0, Except.ok ()) →
      ensure_clean env = (t1, Except.ok ()) →
      ensure_upstream_remote env = (t2, Except.ok ()) →
      is_gpg_signing_available env = (t3, Except.ok b) →
      branch_exists env args.patch_branch = (t4, Except.ok true) →
      resolve_new_tag env args = (t5, Except.ok nt) →
      verify_tag_local env nt = (t6, Except.ok ()) →
      resolve_old_tag env args = (t7, Except.ok (some ot)) →
      ot ≠ "" →
      do_rebase env args.patch_branch ot nt = (t8, Except.error e) →
      main_run env args =
        (t0 ++ t1 ++ t2 ++ t3 ++ t4 ++ t5 ++ t6 ++ t7 ++ t8, Except.error e)) ∧
    (∀ (env : Env) (nt sfx : String) (g : List Effect) (rc1 rc2 : Int) (o1 o2 : String),
      is_gpg_signing_available env = (g, Except.ok true) →
      env.runCmd (tagCmdFS (nt ++ "-" ++ sfx)) = CmdOut.done rc1 o1 → rc1 ≠ 0 →
      env.runCmd (tagCmdS (nt ++ "-" ++ sfx)) = CmdOut.done rc2 o2 → rc2 ≠ 0 →
      create_or_update_release_tag env nt sfx =
        (g ++ [Effect.cmd (tagCmdFS (nt ++ "-" ++ sfx)),
          Effect.cmd (tagCmdS (nt ++ "-" ++ sfx))],
          Except.error (Err.runtime
            (failMessage rc2 (tagCmdS (nt ++ "-" ++ sfx)) o2)))) ∧
    (∀ (env : Env) (nt sfx : String) (g : List Effect) (rc1 rc2 : Int) (o1 o2 : String),
      is_gpg_signing_available env = (g, Except.ok false) →
      env.runCmd (tagCmdFA (nt ++ "-" ++ sfx)) = CmdOut.done rc1 o1 → rc1 ≠ 0 →
      env.runCmd (tagCmdA (nt ++ "-" ++ sfx)) = CmdOut.done rc2 o2 → rc2 ≠ 0 →
      create_or_update_release_tag env nt sfx =
        (g ++ [Effect.cmd (tagCmdFA (nt ++ "-" ++ sfx)),
          Effect.cmd (tagCmdA (nt ++ "-" ++ sfx))],
          Except.error (Err.runtime
            (failMessage rc2 (tagCmdA (nt ++ "-" ++ sfx)) o2)))) ∧
    (∀ (env : Env) (tag m : String) (rc2 : Int) (o2 : String),
      run env (revParseTagCmd tag) true =
        ([Effect.cmd (revParseTagCmd tag)], Except.error (Err.runtime m)) →
      env.runCmd (fetchTagCmd tag) = CmdOut.done rc2 o2 → rc2 ≠ 0 →
      verify_tag_local env tag =
        ([Effect.cmd (revParseTagCmd tag), Effect.cmd (fetchTagCmd tag)],
          Except.error (Err.runtime (failMessage rc2 (fetchTagCmd tag) o2)))) := by
  refine ⟨?_, ?_, ?_, ?_, ?_, ?_, ?_⟩
  · intro env e hapi
    unfold get_latest_tag emitE
    rw [hapi]
    simp [raiseRT]
  · exact run_done_fail
  · intro env pb ot nt o1 o2 rc3 o3 h1 h2 h3 hrc
    unfold do_rebase
    rw [verify_ok env ot o1 h1]
    simp only [M_bind_def, M_bind_ok]
    rw [verify_ok env nt o2 h2]
    simp only [M_bind_def, M_bind_ok]
    rw [run_done_fail env _ rc3 o3 h3 hrc]
    simp only [M_bind_def, M_bind_error]
    simp
  · intro env args t0 t1 t2 t3 t4 t5 t6 t7 t8 b nt ot e
    intro h0 h1 h2 h3 h4 h5 h6 h7 hne h8
    unfold main_run
    rw [h0, h1, h2, h3, h4]
    simp only [M_bind_def, M_bind_ok, M_bind_error, M_pure_eq, Bool.not_true,
      Bool.false_eq_true, if_false]
    rw [h5]
    simp only [M_bind_def, M_bind_ok]
    rw [h6]
    simp only [M_bind_def, M_bind_ok]
    rw [h7]
    simp only [M_bind_def, M_bind_ok]
    have hbe : (ot == "") = false := by simp [hne]
    simp only [hbe, if_false]
    rw [h8]
    simp only [M_bind_def, M_bind_error]
    simp [List.append_assoc]
  · intro env nt sfx g rc1 rc2 o1 o2 hg hfs hrc1 hs hrc2
    unfold create_or_update_release_tag
    rw [hg]
    simp only [M_bind_def, M_bind_ok, M_pure_eq, if_true]
    rw [run_done_fail env _ rc1 o1 hfs hrc1]
    simp only [M_bind_def, M_bind_error, tryRT_rt]
    rw [run_done_fail env _ rc2 o2 hs hrc2]
    simp
  · intro env nt sfx g rc1 rc2 o1 o2 hg hfa hrc1 ha hrc2
    unfold create_or_update_release_tag
    rw [hg]
    simp only [M_bind_def, M_bind_ok, M_pure_eq, Bool.false_eq_true, if_false]
    rw [run_done_fail env _ rc1 o1 hfa hrc1]
    simp only [M_bind_def, M_bind_error, tryRT_rt]
    rw [run_done_fail env _ rc2 o2 ha hrc2]
    simp
  · intro env tag m rc2 o2 hrp hf hrc2
    unfold verify_tag_local
    rw [hrp]
    simp only [M_bind_def, M_bind_error, tryRT_rt]
    rw [run_done_fail env _ rc2 o2 hf hrc2]
    simp

/-- Witness for C2 (amended): the API-failure conjunct applied to a
concrete environment whose request fails with message `boom`, and the
unsigned double-failure conjunct applied to a concrete environment
where `git tag -fa` and `git tag -a` both fail. -/
theorem spec_C2_witness :
    netEnv.latestRelease = ApiOut.netError "boom" ∧
    get_latest_tag netEnv = ([Effect.httpGet api_url (request_headers netEnv)],
      Except.error (Err.runtime (fetchLatestFailMsg "boom"))) ∧
    is_gpg_signing_available tagFailEnv = (gpgProbeTrace, Except.ok false) ∧
    tagFailEnv.runCmd (tagCmdFA ("n8n@1.2.3" ++ "-" ++ "iam")) = CmdOut.done 1 "boom1" ∧
    tagFailEnv.runCmd (tagCmdA ("n8n@1.2.3" ++ "-" ++ "iam")) = CmdOut.done 1 "boom2" ∧
    create_or_update_release_tag tagFailEnv "n8n@1.2.3" "iam" =
      (gpgProbeTrace ++ [Effect.cmd (tagCmdFA ("n8n@1.2.3" ++ "-" ++ "iam")),
        Effect.cmd (tagCmdA ("n8n@1.2.3" ++ "-" ++ "iam"))],
        Except.error (Err.runtime
          (failMessage 1 (tagCmdA ("n8n@1.2.3" ++ "-" ++ "iam")) "boom2"))) :=
  ⟨rfl, spec_C2_amended.1 netEnv "boom" rfl, rfl, rfl, rfl,
    spec_C2_amended.2.2.2.2.2.1 tagFailEnv "n8n@1.2.3" "iam" gpgProbeTrace 1 1
      "boom1" "boom2" rfl rfl (by decide) rfl (by decide)⟩

/-- Counterexample to C3: with `--from-tag` supplied as the empty string
(a supplied value), the base tag actually used by the rebase is the
inferred `n8n@1.50.0`, not the supplied value, and the run succeeds.
This refutes "the base tag used for the rebase is the value of
--from-tag when that flag is supplied." -/
theorem spec_C3_counterexample :
    cexArgs3.from_tag = some "" ∧
    Effect.cmd (rebaseCmd "n8n@1.60.0" "n8n@1.50.0" "iam") ∈ (main_run cexEnv3 cexArgs3).1 ∧
    ¬ (Effect.cmd (rebaseCmd "n8n@1.60.0" "" "iam") ∈ (main_run cexEnv3 cexArgs3).1) ∧
    (main_run cexEnv3 cexArgs3).2 = Except.ok () := by
  refine ⟨rfl, ?_, ?_, rfl⟩ <;> decide

/-- C3 (amended): the base tag is the value of `--from-tag` when that
flag is supplied with a non-empty value; otherwise (absent or empty) it
is the inference of `git describe --tags --abbrev=0 --exclude '*-iam'`
on the patch branch; when no truthy `--from-tag` is given and the
inference yields no candidate, the process exits with a descriptive
message and the trace is exactly that of the preceding steps — the
rebase is not performed; and when a non-empty base is resolved, the run
continues into `do_rebase` with exactly that base tag. -/
theorem spec_C3_amended :
    (∀ (env : Env) (args : Args) (t : String), args.from_tag = some t → t ≠ "" →
      resolve_old_tag env args = ([], Except.ok (some t))) ∧
    (∀ (env : Env) (args : Args), pyTruthyOpt args.from_tag = false →
      resolve_old_tag env args = infer_base_tag_with_describe env args.patch_branch) ∧
    (∀ (env : Env) (args : Args) (t0 t1 t2 t3 t4 t5 t6 t7 : List Effect)
      (b : Bool) (nt : String),
      ensure_repo env = (t0, Except.ok ()) →
      ensure_clean env = (t1, Except.ok ()) →
      ensure_upstream_remote env = (t2, Except.ok ()) →
      is_gpg_signing_available env = (t3, Except.ok b) →
      branch_exists env args.patch_branch = (t4, Except.ok true) →
      resolve_new_tag env args = (t5, Except.ok nt) →
      verify_tag_local env nt = (t6, Except.ok ()) →
      resolve_old_tag env args = (t7, Except.ok none) →
      main_run env args =
        (t0 ++ t1 ++ t2 ++ t3 ++ t4 ++ t5 ++ t6 ++ t7,
          Except.error (Err.exit (noBaseMsg args.patch_branch)))) ∧
    (∀ (env : Env) (args : Args) (t0 t1 t2 t3 t4 t5 t6 t7 t8 t9 : List Effect)
      (b : Bool) (nt ot s : String),
      ensure_repo env = (t0, Except.ok ()) →
      ensure_clean env = (t1, Except.ok ()) →
      ensure_upstream_remote env = (t2, Except.ok ()) →
      is_gpg_signing_available env = (t3, Except.ok b) →
      branch_exists env args.patch_branch = (t4, Except.ok true) →
      resolve_new_tag env args = (t5, Except.ok nt) →
      verify_tag_local env nt = (t6, Except.ok ()) →
      resolve_old_tag env args = (t7, Except.ok (some ot)) →
      ot ≠ "" →
      do_rebase env args.patch_branch ot nt = (t8, Except.ok ()) →
      create_or_update_release_tag env nt RELEASE_TAG_SUFFIX = (t9, Except.ok s) →
      main_run env args =
        (t0 ++ t1 ++ t2 ++ t3 ++ t4 ++ t5 ++ t6 ++ t7 ++ t8 ++ t9, Except.ok ())) := by
  refine ⟨?_, ?_, ?_, ?_⟩
  · intro env args t hft hne
    simp [resolve_old_tag, hft, hne]
  · intro env args hft
    unfold resolve_old_tag
    rcases hf : args.from_tag with _ | t
    · rfl
    · rw [hf] at hft
      simp only [pyTruthyOpt] at hft
      simp [hft]
  · intro env args t0 t1 t2 t3 t4 t5 t6 t7 b nt h0 h1 h2 h3 h4 h5 h6 h7
    unfold main_run
    rw [h0, h1, h2, h3, h4]
    simp only [M_bind_def, M_bind_ok, M_bind_error, M_pure_eq, Bool.not_true,
      Bool.false_eq_true, if_false]
    rw [h5]
    simp only [M_bind_def, M_bind_ok]
    rw [h6]
    simp only [M_bind_def, M_bind_ok]
    rw [h7]
    simp only [M_bind_def, M_bind_ok]
    simp [sysExit, List.append_assoc]
  · intro env args t0 t1 t2 t3 t4 t5 t6 t7 t8 t9 b nt ot s
    intro h0 h1 h2 h3 h4 h5 h6 h7 hne h8 h9
    unfold main_run
    rw [h0, h1, h2, h3, h4]
    simp only [M_bind_def, M_bind_ok, M_bind_error, M_pure_eq, Bool.not_true,
      Bool.false_eq_true, if_false]
    rw [h5]
    simp only [M_bind_def, M_bind_ok]
    rw [h6]
    simp only [M_bind_def, M_bind_ok]
    rw [h7]
    simp only [M_bind_def, M_bind_ok]
    have hbe : (ot == "") = false := by simp [hne]
    simp only [hbe, if_false]
    rw [h8]
    simp only [M_bind_def, M_bind_ok]
    rw [h9]
    simp only [M_bind_def, M_bind_ok, M_pure_eq]
    simp [List.append_assoc]

/-- Witness for C3 (amended): in a concrete run with `--from-tag`
absent and `git describe` producing empty output, the process stops at
base-tag resolution with the descriptive message; every component
hypothesis is discharged by computation. -/
theorem spec_C3_witness :
    ensure_repo okEnv = ([Effect.cmd rpWorktreeCmd], Except.ok ()) ∧
    ensure_clean okEnv = ([Effect.proc diffArgv, Effect.proc diffCachedArgv,
      Effect.cmd lsFilesCmd], Except.ok ()) ∧
    ensure_upstream_remote okEnv = ([Effect.cmd remoteVCmd, Effect.cmd addUpstreamCmd,
      Effect.cmd fetchTagsCmd], Except.ok ()) ∧
    is_gpg_signing_available okEnv = (gpgProbeTrace, Except.ok false) ∧
    branch_exists okEnv wArgs3.patch_branch =
      ([Effect.cmd (branchVerifyCmd "iam")], Except.ok true) ∧
    resolve_new_tag okEnv wArgs3 = ([], Except.ok "n8n@1.60.0") ∧
    verify_tag_local okEnv "n8n@1.60.0" =
      ([Effect.cmd (revParseTagCmd "n8n@1.60.0")], Except.ok ()) ∧
    resolve_old_tag okEnv wArgs3 = ([Effect.cmd (describeCmd "iam")], Except.ok none) ∧
    main_run okEnv wArgs3 =
      ([Effect.cmd rpWorktreeCmd] ++
        [Effect.proc diffArgv, Effect.proc diffCachedArgv, Effect.cmd lsFilesCmd] ++
        [Effect.cmd remoteVCmd, Effect.cmd addUpstreamCmd, Effect.cmd fetchTagsCmd] ++
        gpgProbeTrace ++ [Effect.cmd (branchVerifyCmd "iam")] ++ [] ++
        [Effect.cmd (revParseTagCmd "n8n@1.60.0")] ++ [Effect.cmd (describeCmd "iam")],
        Except.error (Err.exit (noBaseMsg wArgs3.patch_branch))) :=
  ⟨rfl, rfl, rfl, rfl, rfl, rfl, rfl, rfl,
    spec_C3_amended.2.2.1 okEnv wArgs3 _ _ _ _ _ _ _ _ false "n8n@1.60.0"
      rfl rfl rfl rfl rfl rfl rfl rfl⟩

end ReleaseUpdate

namespace ReleaseUpdate

/-- Counterexample to C4: with `--to-tag` supplied as the empty string,
the latest-release endpoint is still queried, and with `GITHUB_TOKEN`
set (to the empty string) the request carries no Authorization header.
This refutes both "the latest-release API endpoint is never queried"
when the flag is supplied and "the request carries an Authorization
header exactly when the GITHUB_TOKEN or GH_TOKEN environment variable
is set." -/
theorem spec_C4_counterexample :
    cexArgs4.to_tag = some "" ∧
    cexEnv4.githubTokenVar = some "" ∧
    request_headers cexEnv4 = [("User-Agent", userAgentValue)] ∧
    Effect.httpGet api_url (request_headers cexEnv4) ∈ (main_run cexEnv4 cexArgs4).1 ∧
    (main_run cexEnv4 cexArgs4).2 = Except.ok () := by
  refine ⟨rfl, rfl, rfl, ?_, rfl⟩
  decide

/-- C4 (amended): the target tag is the value of `--to-tag` when that
flag is supplied with a non-empty value, and then the latest-release
endpoint is not queried (the resolution emits no effect); when the flag
is absent or empty, resolution is exactly `get_latest_tag`; the request
carries an Authorization header exactly when `GITHUB_TOKEN` or
`GH_TOKEN` is set to a non-empty string; a falsy `tag_name` and a
network error are fatal; a non-empty `tag_name` is returned as the
target. -/
theorem spec_C4_amended :
    (∀ (env : Env) (args : Args) (t : String), args.to_tag = some t → t ≠ "" →
      resolve_new_tag env args = ([], Except.ok t)) ∧
    (∀ (env : Env) (args : Args), pyTruthyOpt args.to_tag = false →
      resolve_new_tag env args = get_latest_tag env) ∧
    (∀ env : Env,
      (∃ v, ("Authorization", v) ∈ request_headers env) ↔
        ((∃ s, env.githubTokenVar = some s ∧ s ≠ "") ∨
          (∃ s, env.ghTokenVar = some s ∧ s ≠ ""))) ∧
    (∀ (env : Env) (tn : Option String), env.latestRelease = ApiOut.response tn →
      pyTruthyOpt tn = false →
      (get_latest_tag env).2 = Except.error (Err.runtime missingTagMsg)) ∧
    (∀ (env : Env) (s : String), env.latestRelease = ApiOut.response (some s) → s ≠ "" →
      get_latest_tag env =
        ([Effect.httpGet api_url (request_headers env)], Except.ok s)) ∧
    (∀ (env : Env) (e : String), env.latestRelease = ApiOut.netError e →
      (get_latest_tag env).2 = Except.error (Err.runtime (fetchLatestFailMsg e))) := by
  refine ⟨?_, ?_, ?_, ?_, ?_, ?_⟩
  · intro env args t ht hne
    simp [resolve_new_tag, ht, hne]
  · intro env args ht
    unfold resolve_new_tag
    rcases hf : args.to_tag with _ | t
    · rfl
    · rw [hf] at ht
      simp only [pyTruthyOpt] at ht
      simp [ht]
  · intro env
    unfold request_headers pyOr
    rcases hg : env.githubTokenVar with _ | s
    · rcases hh : env.ghTokenVar with _ | s2
      · simp [pyTruthyOpt]
      · by_cases hs2 : s2 = ""
        · subst hs2
          simp [pyTruthyOpt]
        · simp [pyTruthyOpt, hs2]
    · by_cases hs : s = ""
      · subst hs
        rcases hh : env.ghTokenVar with _ | s2
        · simp [pyTruthyOpt]
        · by_cases hs2 : s2 = ""
          · subst hs2
            simp [pyTruthyOpt]
          · simp [pyTruthyOpt, hs2]
      · simp [pyTruthyOpt, hs]
  · intro env tn hapi ht
    unfold get_latest_tag emitE
    rw [hapi]
    rcases tn with _ | s
    · simp [raiseRT]
    · simp only [pyTruthyOpt] at ht
      simp [raiseRT, ht]
  · intro env s hapi hne
    unfold get_latest_tag emitE
    rw [hapi]
    simp [hne]
  · intro env e hapi
    unfold get_latest_tag emitE
    rw [hapi]
    simp [raiseRT]

/-- Witness for C4 (amended): with `--to-tag n8n@1.60.0` supplied, the
resolution returns it and performs no effect. -/
theorem spec_C4_witness :
    wArgs3.to_tag = some "n8n@1.60.0" ∧ "n8n@1.60.0" ≠ "" ∧
    resolve_new_tag okEnv wArgs3 = ([], Except.ok "n8n@1.60.0") :=
  ⟨rfl, by decide, spec_C4_amended.1 okEnv wArgs3 "n8n@1.60.0" rfl (by decide)⟩

/-- C5: the release tag created or overwritten is the annotated tag
named exactly the target tag followed by `-` and the suffix (main
passes `RELEASE_TAG_SUFFIX = "iam"`), placed on the current HEAD (none
of the four tag commands names any other commit); it is created with
the GPG-signed forms `-fs`/`-s` when signing is available and
configured, and with the unsigned forms `-fa`/`-a` otherwise; the
forced form is tried first (overwrite), with a single non-forced
fallback. -/
theorem spec_C5_release_tagging :
    RELEASE_TAG_SUFFIX = "iam" ∧
    (∀ (env : Env) (nt sfx : String) (g : List Effect) (o : String),
      is_gpg_signing_available env = (g, Except.ok true) →
      env.runCmd (tagCmdFS (nt ++ "-" ++ sfx)) = CmdOut.done 0 o →
      create_or_update_release_tag env nt sfx =
        (g ++ [Effect.cmd (tagCmdFS (nt ++ "-" ++ sfx))], Except.ok (nt ++ "-" ++ sfx))) ∧
    (∀ (env : Env) (nt sfx : String) (g : List Effect) (m o2 : String),
      is_gpg_signing_available env = (g, Except.ok true) →
      run env (tagCmdFS (nt ++ "-" ++ sfx)) true =
        ([Effect.cmd (tagCmdFS (nt ++ "-" ++ sfx))], Except.error (Err.runtime m)) →
      env.runCmd (tagCmdS (nt ++ "-" ++ sfx)) = CmdOut.done 0 o2 →
      create_or_update_release_tag env nt sfx =
        (g ++ [Effect.cmd (tagCmdFS (nt ++ "-" ++ sfx)),
          Effect.cmd (tagCmdS (nt ++ "-" ++ sfx))], Except.ok (nt ++ "-" ++ sfx))) ∧
    (∀ (env : Env) (nt sfx : String) (g : List Effect) (o : String),
      is_gpg_signing_available env = (g, Except.ok false) →
      env.runCmd (tagCmdFA (nt ++ "-" ++ sfx)) = CmdOut.done 0 o →
      create_or_update_release_tag env nt sfx =
        (g ++ [Effect.cmd (tagCmdFA (nt ++ "-" ++ sfx))], Except.ok (nt ++ "-" ++ sfx))) ∧
    (∀ (env : Env) (nt sfx : String) (g : List Effect) (m o2 : String),
      is_gpg_signing_available env = (g, Except.ok false) →
      run env (tagCmdFA (nt ++ "-" ++ sfx)) true =
        ([Effect.cmd (tagCmdFA (nt ++ "-" ++ sfx))], Except.error (Err.runtime m)) →
      env.runCmd (tagCmdA (nt ++ "-" ++ sfx)) = CmdOut.done 0 o2 →
      create_or_update_release_tag env nt sfx =
        (g ++ [Effect.cmd (tagCmdFA (nt ++ "-" ++ sfx)),
          Effect.cmd (tagCmdA (nt ++ "-" ++ sfx))], Except.ok (nt ++ "-" ++ sfx))) := by
  refine ⟨rfl, ?_, ?_, ?_, ?_⟩
  · intro env nt sfx g o hg hfs
    unfold create_or_update_release_tag
    rw [hg]
    simp only [M_bind_def, M_bind_ok, M_pure_eq, if_true]
    rw [run_done_ok env _ true 0 o hfs (by simp)]
    simp
  · intro env nt sfx g m o2 hg hfs hs
    unfold create_or_update_release_tag
    rw [hg]
    simp only [M_bind_def, M_bind_ok, M_pure_eq, if_true]
    rw [hfs]
    simp only [M_bind_def, M_bind_error, tryRT_rt]
    rw [run_done_ok env _ true 0 o2 hs (by simp)]
    simp
  · intro env nt sfx g o hg hfa
    unfold create_or_update_release_tag
    rw [hg]
    simp only [M_bind_def, M_bind_ok, M_pure_eq, Bool.false_eq_true, if_false]
    rw [run_done_ok env _ true 0 o hfa (by simp)]
    simp
  · intro env nt sfx g m o2 hg hfa ha
    unfold create_or_update_release_tag
    rw [hg]
    simp only [M_bind_def, M_bind_ok, M_pure_eq, Bool.false_eq_true, if_false]
    rw [hfa]
    simp only [M_bind_def, M_bind_error, tryRT_rt]
    rw [run_done_ok env _ true 0 o2 ha (by simp)]
    simp

/-- Witness for C5: with signing unavailable, a concrete run creates
exactly the unsigned annotated tag `n8n@1.2.3-iam`. -/
theorem spec_C5_witness :
    is_gpg_signing_available okEnv = (gpgProbeTrace, Except.ok false) ∧
    okEnv.runCmd (tagCmdFA ("n8n@1.2.3" ++ "-" ++ "iam")) = CmdOut.done 0 "" ∧
    create_or_update_release_tag okEnv "n8n@1.2.3" "iam" =
      (gpgProbeTrace ++ [Effect.cmd (tagCmdFA ("n8n@1.2.3" ++ "-" ++ "iam"))],
        Except.ok ("n8n@1.2.3" ++ "-" ++ "iam")) :=
  ⟨rfl, rfl, spec_C5_release_tagging.2.2.2.1 okEnv "n8n@1.2.3" "iam" gpgProbeTrace "" rfl rfl⟩

/-- C6: whenever the untracked-files listing command itself succeeds,
the clean-working-copy check exits with the descriptive message if and
only if the unstaged-diff check or the staged-diff check reports a
difference or the stripped untracked listing is non-empty; otherwise it
returns and execution continues.  (If the listing command itself fails,
that failure — not the cleanliness exit — terminates the run.) -/
theorem spec_C6_ensure_clean (env : Env) (out : String)
    (h : env.runCmd lsFilesCmd = CmdOut.done 0 out) :
    ensure_clean env =
      ([Effect.proc diffArgv, Effect.proc diffCachedArgv, Effect.cmd lsFilesCmd],
        if env.procRc diffArgv ≠ 0 ∨ env.procRc diffCachedArgv ≠ 0 ∨ pyStrip out ≠ "" then
          Except.error (Err.exit cleanErrMsg)
        else Except.ok ()) := by
  unfold ensure_clean procRun
  rw [run_done_ok env _ true 0 out h (by simp)]
  simp only [M_bind_def, M_bind_ok, M_pure_eq, List.append_nil, List.nil_append]
  by_cases hc : env.procRc diffArgv ≠ 0 ∨ env.procRc diffCachedArgv ≠ 0 ∨ pyStrip out ≠ ""
  · rw [if_pos hc]
    have hb : (env.procRc diffArgv != 0 || env.procRc diffCachedArgv != 0 ||
        pyStrip out != "") = true := by
      rcases hc with h1 | h2 | h3
      · simp [h1]
      · simp [h2]
      · simp [h3]
    simp [hb, sysExit]
  · rw [if_neg hc]
    push_neg at hc
    obtain ⟨h1, h2, h3⟩ := hc
    simp [h1, h2, h3]

/-- Witness for C6: in a clean concrete environment the check returns
and execution continues. -/
theorem spec_C6_witness :
    okEnv.runCmd lsFilesCmd = CmdOut.done 0 "" ∧
    ensure_clean okEnv =
      ([Effect.proc diffArgv, Effect.proc diffCachedArgv, Effect.cmd lsFilesCmd],
        if okEnv.procRc diffArgv ≠ 0 ∨ okEnv.procRc diffCachedArgv ≠ 0 ∨
            pyStrip "" ≠ "" then
          Except.error (Err.exit cleanErrMsg)
        else Except.ok ()) :=
  ⟨rfl, spec_C6_ensure_clean okEnv "" rfl⟩

end ReleaseUpdate

namespace ReleaseUpdate

/-- Counterexample to C7: in a concrete run the `gpg --version` probe
times out, yet the process does not terminate with an error — the
timeout is caught by the GPG availability probe and the run finishes
successfully.  This refutes "when the timeout expires the command is
aborted and the process terminates with an error naming the command." -/
theorem spec_C7_counterexample :
    cexEnv7.runCmd gpgVersionCmd = CmdOut.timeout ∧
    Effect.cmd gpgVersionCmd ∈ (main_run cexEnv7 cexArgs).1 ∧
    (main_run cexEnv7 cexArgs).2 = Except.ok () := by
  refine ⟨rfl, ?_, rfl⟩
  decide

/-- C7 (amended): commands invoked through the `run` helper are subject
to the fixed 120-second default timeout, whose expiry raises an error
naming the command; that error is fatal only when no call site catches
it — in particular a timeout of the `gpg --version` probe is absorbed
and signing is treated as unavailable.  The two bare `subprocess.run`
diff checks of `ensure_clean` are invoked without any timeout. -/
theorem spec_C7_amended :
    (∀ (env : Env) (c : String) (chk : Bool), env.runCmd c = CmdOut.timeout →
      run env c chk = ([Effect.cmd c], Except.error (Err.runtime (timeoutMessage c)))) ∧
    (∀ c : String, timeoutMessage c = "Timeout executing: " ++ c) ∧
    (∀ env : Env, env.runCmd gpgVersionCmd = CmdOut.timeout →
      is_gpg_signing_available env = ([Effect.cmd gpgVersionCmd], Except.ok false)) ∧
    run_timeout_default = 120 := by
  refine ⟨run_tmo, fun _ => rfl, ?_, rfl⟩
  intro env htmo
  unfold is_gpg_signing_available
  rw [run_tmo env _ true htmo]
  simp

/-- Witness for C7 (amended): the caught-timeout conjunct applied to
the concrete timing-out environment. -/
theorem spec_C7_witness :
    cexEnv7.runCmd gpgVersionCmd = CmdOut.timeout ∧
    is_gpg_signing_available cexEnv7 = ([Effect.cmd gpgVersionCmd], Except.ok false) :=
  ⟨rfl, spec_C7_amended.2.2.1 cexEnv7 rfl⟩

/-- C8: when a checked command finishes with a non-zero status, `run`
raises a fatal error whose message is `failMessage`, and that message
contains both the command that was run and the captured combined
stdout+stderr output, as witnessed by explicit decompositions. -/
theorem spec_C8_failure_message (env : Env) (cmd : String) (rc : Int) (out : String)
    (h : env.runCmd cmd = CmdOut.done rc out) (hrc : rc ≠ 0) :
    run env cmd true = ([Effect.cmd cmd],
      Except.error (Err.runtime (failMessage rc cmd out))) ∧
    (∃ a b, failMessage rc cmd out = a ++ cmd ++ b) ∧
    (∃ c, failMessage rc cmd out = c ++ out) := by
  refine ⟨run_done_fail env cmd rc out h hrc, ?_, ?_⟩
  · refine ⟨"Command failed (" ++ toString rc ++ "): ", "\n" ++ out, ?_⟩
    unfold failMessage
    rw [strAppend_assoc]
  · exact ⟨"Command failed (" ++ toString rc ++ "): " ++ cmd ++ "\n", rfl⟩

/-- Witness for C8: a concrete failing `git status` produces the fatal
message containing the command and its output. -/
theorem spec_C8_witness :
    env8.runCmd gitStatusCmd = CmdOut.done 2 "boom" ∧ (2 : Int) ≠ 0 ∧
    run env8 gitStatusCmd true = ([Effect.cmd gitStatusCmd],
      Except.error (Err.runtime (failMessage 2 gitStatusCmd "boom"))) ∧
    (∃ a b, failMessage 2 gitStatusCmd "boom" = a ++ gitStatusCmd ++ b) ∧
    (∃ c, failMessage 2 gitStatusCmd "boom" = c ++ "boom") :=
  ⟨rfl, by decide,
    (spec_C8_failure_message env8 gitStatusCmd 2 "boom" rfl (by decide)).1,
    (spec_C8_failure_message env8 gitStatusCmd 2 "boom" rfl (by decide)).2.1,
    (spec_C8_failure_message env8 gitStatusCmd 2 "boom" rfl (by decide)).2.2⟩

/-- C9: the `git remote add upstream` command is issued if and only if
the substring `upstream` does not occur in the `git remote -v` listing;
when the substring occurs anywhere in the listing (for instance only
inside a URL), the step performs exactly the listing and the
`git fetch upstream --tags` command — it skips the addition and
proceeds to fetch from a remote named `upstream` that may not exist. -/
theorem spec_C9_upstream_substring (env : Env) (remotes : String)
    (h : env.runCmd remoteVCmd = CmdOut.done 0 remotes) :
    ((Effect.cmd addUpstreamCmd ∈ (ensure_upstream_remote env).1) ↔
      pyIn upstreamNeedle remotes = false) ∧
    (pyIn upstreamNeedle remotes = true →
      (ensure_upstream_remote env).1 = [Effect.cmd remoteVCmd, Effect.cmd fetchTagsCmd]) := by
  unfold ensure_upstream_remote
  rw [run_done_ok env _ true 0 remotes h (by simp)]
  rcases hpy : pyIn upstreamNeedle remotes
  · constructor
    · simp only [hpy, M_bind_def, M_bind_ok, M_pure_eq, Bool.not_false, if_true]
      constructor
      · intro _
        trivial
      · intro _
        apply List.mem_append_right
        apply mem_bind_left
        rw [run_trace]
        exact List.mem_singleton_self _
    · intro hcon
      exact Bool.noConfusion hcon
  · have hnil : (M.bind (run env fetchTagsCmd true)
        (fun _ => (([], Except.ok ()) : M Unit))).1 = [Effect.cmd fetchTagsCmd] := by
      rw [M_bind_trace_nil _ _ (fun _ => rfl), run_trace]
    constructor
    · simp only [hpy, M_bind_def, M_bind_ok, M_pure_eq, Bool.not_true, Bool.false_eq_true,
        if_false, List.nil_append, hnil]
      constructor
      · intro hmem
        exfalso
        simp only [List.mem_append, List.mem_singleton, List.mem_cons,
          List.not_mem_nil] at hmem
        rcases hmem with h1 | h1
        · exact absurd h1 (by decide)
        · rcases h1 with h1 | h1
          · exact absurd h1 (by decide)
          · exact h1
      · intro hcon
        exact Bool.noConfusion hcon
    · intro _
      simp only [hpy, M_bind_def, M_bind_ok, M_pure_eq, Bool.not_true, Bool.false_eq_true,
        if_false, List.nil_append, hnil]
      rfl

/-- Witness for C9: a listing whose only remote is `origin` but whose
URL contains `upstream` satisfies the substring test, so the addition
is skipped and only the listing and the tag fetch are performed. -/
theorem spec_C9_witness :
    env9.runCmd remoteVCmd = CmdOut.done 0 remotesOut ∧
    pyIn upstreamNeedle remotesOut = true ∧
    ((Effect.cmd addUpstreamCmd ∈ (ensure_upstream_remote env9).1) ↔
      pyIn upstreamNeedle remotesOut = false) ∧
    (pyIn upstreamNeedle remotesOut = true →
      (ensure_upstream_remote env9).1 = [Effect.cmd remoteVCmd, Effect.cmd fetchTagsCmd]) :=
  ⟨rfl, by decide,
    (spec_C9_upstream_substring env9 remotesOut rfl).1,
    (spec_C9_upstream_substring env9 remotesOut rfl).2⟩

/-- C10: when GPG signing is available, the tags verify, the checkout
succeeds, and the re-read `commit.gpgsign` value is not already
enabled, the rebase step issues `git config commit.gpgsign true`; over
every environment, the only configuration-writing command the rebase
step can ever emit is that one (nothing restores the previous value),
and the release-tagging step emits no configuration write at all, so
the change persists after the tool exits. -/
theorem spec_C10_gpgsign :
    (∀ (env : Env) (pb ot nt : String) (g : List Effect) (o1 o2 o3 cur : String) (rcg : Int),
      env.runCmd (revParseTagCmd ot) = CmdOut.done 0 o1 →
      env.runCmd (revParseTagCmd nt) = CmdOut.done 0 o2 →
      env.runCmd (checkoutCmd pb) = CmdOut.done 0 o3 →
      is_gpg_signing_available env = (g, Except.ok true) →
      env.runCmd cfgGetSignCmd = CmdOut.done rcg cur →
      (cur == "" || !(gpgTrueValues.contains (pyLower (pyStrip cur)))) = true →
      Effect.cmd cfgSetSignCmd ∈ (do_rebase env pb ot nt).1) ∧
    (∀ (env : Env) (pb ot nt : String), ∀ e ∈ (do_rebase env pb ot nt).1,
      isConfigWriteEffect e = true → e = Effect.cmd cfgSetSignCmd) ∧
    (∀ (env : Env) (nt sfx : String), ∀ e ∈ (create_or_update_release_tag env nt sfx).1,
      isConfigWriteEffect e = false) := by
  refine ⟨?_, ?_, ?_⟩
  · intro env pb ot nt g o1 o2 o3 cur rcg h1 h2 h3 hg h5 h6
    unfold do_rebase
    rw [verify_ok env ot o1 h1]
    simp only [M_bind_def, M_bind_ok]
    rw [verify_ok env nt o2 h2]
    simp only [M_bind_def, M_bind_ok]
    rw [run_done_ok env _ true 0 o3 h3 (by simp)]
    simp only [M_bind_def, M_bind_ok]
    rw [hg]
    simp only [M_bind_def, M_bind_ok, if_true]
    rw [run_done_ok env cfgGetSignCmd false rcg cur h5 (by simp)]
    simp only [M_bind_def, M_bind_ok, h6, if_true, List.append_assoc, List.nil_append,
      List.append_nil]
    apply List.mem_append_right
    apply List.mem_append_right
    apply List.mem_append_right
    apply List.mem_append_right
    apply List.mem_append_right
    apply mem_bind_left
    rw [run_trace]
    exact List.mem_singleton_self _
  · intro env pb ot nt
    apply allP_do_rebase
    · intro h
      exact absurd h (by simp [cfgW_revParseTag])
    · intro h
      exact absurd h (by simp [cfgW_fetchTag])
    · intro h
      exact absurd h (by simp [cfgW_revParseTag])
    · intro h
      exact absurd h (by simp [cfgW_fetchTag])
    · intro h
      exact absurd h (by simp [cfgW_checkout])
    · intro h
      exact absurd h (by decide)
    · intro h
      exact absurd h (by decide)
    · intro h
      exact absurd h (by decide)
    · intro _
      rfl
    · intro h
      exact absurd h (by simp [cfgW_rebase])
    · intro h
      exact absurd h (by decide)
  · intro env nt sfx
    apply allP_create
    · decide
    · decide
    · decide
    · exact cfgW_tagFS (nt ++ "-" ++ sfx)
    · exact cfgW_tagS (nt ++ "-" ++ sfx)
    · exact cfgW_tagFA (nt ++ "-" ++ sfx)
    · exact cfgW_tagA (nt ++ "-" ++ sfx)

/-- Witness for C10: in a concrete environment with a configured
signing key and `commit.gpgsign` unset, the rebase step emits the
configuration write. -/
theorem spec_C10_witness :
    gpgEnv.runCmd (revParseTagCmd "n8n@1.0.0") = CmdOut.done 0 "" ∧
    gpgEnv.runCmd (revParseTagCmd "n8n@2.0.0") = CmdOut.done 0 "" ∧
    gpgEnv.runCmd (checkoutCmd "iam") = CmdOut.done 0 "" ∧
    is_gpg_signing_available gpgEnv = (gpgKeyTrace, Except.ok true) ∧
    gpgEnv.runCmd cfgGetSignCmd = CmdOut.done 0 "" ∧
    ("" == "" || !(gpgTrueValues.contains (pyLower (pyStrip "")))) = true ∧
    Effect.cmd cfgSetSignCmd ∈ (do_rebase gpgEnv "iam" "n8n@1.0.0" "n8n@2.0.0").1 :=
  ⟨rfl, rfl, rfl, rfl, rfl, rfl,
    spec_C10_gpgsign.1 gpgEnv "iam" "n8n@1.0.0" "n8n@2.0.0" gpgKeyTrace "" "" "" "" 0
      rfl rfl rfl rfl rfl rfl⟩

end ReleaseUpdate
